import Mathlib

/-!
Shallow embedding of `scraper.py` (class `FilmIndustryDataScraper`).

External effects are modelled as explicit inputs:
* an HTTP-based adapter receives `Except String (List RawJob)` — `Except.error`
  stands for an exception raised by the fetch (`requests.get` / BeautifulSoup),
  `Except.ok raws` for the list of candidate elements found on the page, each
  candidate carrying the text of its sub-elements (`Option.none` = sub-element
  absent, `Option.some s` = sub-element present with extracted text `s`);
* the Selenium-based adapter receives an `FJFetch` value distinguishing a
  failure of driver construction, a failure after the driver exists
  (`driver.get` / `find_elements` raising), and a successful extraction;
* the global `random` module is modelled as a stream `g : Nat → Nat` of draws,
  consumed at an explicit cursor; `random.choice` picks index `r % length`,
  `random.randint lo hi` yields `lo + r % (hi - lo + 1)`, and `random.sample`
  removes a uniformly-indexed element from the pool `k` times.
-/

/-- Python string slicing `s[:n]` (by characters). -/
def truncate (s : String) (n : Nat) : String := String.mk (s.data.take n)

/-- The job-record dictionaries appended by the adapters and the fallback
generator: keys `title`, `description`, `location`, `source`. -/
structure Job where
  title : String
  description : String
  location : String
  source : String
deriving DecidableEq, Repr, Inhabited

/-- A raw candidate element: the extracted text of its `title`, `description`
and `location` sub-elements, `none` when the sub-element is absent. -/
structure RawJob where
  title : Option String
  description : Option String
  location : Option String
deriving DecidableEq, Repr

/-- `self.film_locations`: region name → ordered list of city names,
in insertion order. -/
def film_locations : List (String × List String) :=
  [("United States", ["Los Angeles", "New York", "Atlanta", "Chicago", "Austin", "San Francisco"]),
   ("India", ["Mumbai", "Chennai", "Hyderabad", "Kolkata", "Pune", "Bangalore"]),
   ("United Kingdom", ["London", "Manchester", "Glasgow", "Cardiff"]),
   ("France", ["Paris", "Cannes", "Lyon"]),
   ("Germany", ["Berlin", "Munich", "Hamburg"]),
   ("Italy", ["Rome", "Milan", "Venice"]),
   ("Spain", ["Madrid", "Barcelona", "Valencia"]),
   ("Canada", ["Toronto", "Vancouver", "Montreal"])]

/-- `self.film_categories`. -/
def film_categories : List String :=
  ["Director", "Producer", "Cinematographer", "Editor", "Sound Designer",
   "Production Designer", "Costume Designer", "Makeup Artist", "Visual Effects",
   "Screenwriter", "Casting Director", "Location Manager", "Script Supervisor",
   "Gaffer", "Grip", "Boom Operator", "Assistant Director", "Stunt Coordinator"]

/-- `self.film_skills`. -/
def film_skills : List String :=
  ["Final Cut Pro", "Avid Media Composer", "Adobe Premiere Pro", "After Effects",
   "Cinema 4D", "Maya", "Blender", "Pro Tools", "Logic Pro", "RED Camera",
   "ARRI Alexa", "Steadicam", "Drone Operation", "Color Grading", "Foley",
   "Motion Graphics", "Storyboarding", "Script Analysis", "Budgeting"]

/-- `[city for cities in self.film_locations.values() for city in cities]`. -/
def flat_locations : List String := (film_locations.map Prod.snd).flatten

/-- Body of the per-candidate loop in `scrape_production_hub`: `find` results
for title/description/location; `if title and description:` appends a record
with `description[:500]`, location defaulted to `"Remote"`, source stamped. -/
def normPH (r : RawJob) : Option Job :=
  match r.title, r.description with
  | some t, some d =>
      some { title := t, description := truncate d 500,
             location := r.location.getD "Remote", source := "ProductionHUB" }
  | _, _ => none

/-- `scrape_production_hub`: on any fetch exception return the (empty) list
accumulated so far; otherwise process the first 20 candidates. -/
def scrape_production_hub (fetch : Except String (List RawJob)) : List Job :=
  match fetch with
  | .error _ => []
  | .ok raws => (raws.take 20).filterMap normPH

/-- Outcome of the Selenium session in `scrape_film_jobs_com`:
`acquireFail` = `webdriver.Chrome` itself raises (no session exists);
`fetchFail` = the session exists but `driver.get` / `find_elements` raises;
`ok raws` = extraction succeeds with the given candidate elements. -/
inductive FJFetch where
  | acquireFail : FJFetch
  | fetchFail : FJFetch
  | ok : List RawJob → FJFetch
deriving DecidableEq, Repr

/-- Body of the per-candidate loop in `scrape_film_jobs_com`: each
`find_element` raises when the sub-element is absent (modelled by `none`),
which the inner `except` turns into skipping the record; no `"Remote"`
default and no title/description presence test exist on this path. -/
def normFJ (r : RawJob) : Option Job :=
  match r.title, r.description, r.location with
  | some t, some d, some l =>
      some { title := t, description := truncate d 500,
             location := l, source := "FilmJobs.com" }
  | _, _, _ => none

/-- `scrape_film_jobs_com`: any exception before the loop yields the empty
accumulated list; otherwise the first 15 candidates are processed. -/
def scrape_film_jobs_com : FJFetch → List Job
  | .acquireFail => []
  | .fetchFail => []
  | .ok raws => (raws.take 15).filterMap normFJ

/-- Whether a Selenium session was created on this run of
`scrape_film_jobs_com` (i.e. `webdriver.Chrome(...)` returned). -/
def sessionAcquired : FJFetch → Bool
  | .acquireFail => false
  | .fetchFail => true
  | .ok _ => true

/-- Whether `driver.quit()` runs on this run of `scrape_film_jobs_com`:
the call sits inside the `try` block after the loop, so an exception raised
after the session exists jumps to `except` without reaching it. -/
def driverQuitCalled : FJFetch → Bool
  | .acquireFail => false
  | .fetchFail => false
  | .ok _ => true

/-- Body of the per-candidate loop in `scrape_mandy_network`:
same shape as ProductionHUB, with source `"Mandy Network"`. -/
def normMandy (r : RawJob) : Option Job :=
  match r.title, r.description with
  | some t, some d =>
      some { title := t, description := truncate d 500,
             location := r.location.getD "Remote", source := "Mandy Network" }
  | _, _ => none

/-- `scrape_mandy_network`: fetch exception → empty list; otherwise the
first 10 candidates are processed. -/
def scrape_mandy_network (fetch : Except String (List RawJob)) : List Job :=
  match fetch with
  | .error _ => []
  | .ok raws => (raws.take 10).filterMap normMandy

/-- `job_titles` local list in `generate_fallback_jobs`. -/
def job_titles : List String :=
  ["Senior Video Editor - Netflix Original Series",
   "Director of Photography - Independent Film",
   "VFX Supervisor - Marvel Studios",
   "Sound Designer - A24 Horror Film",
   "Production Designer - HBO Max Series",
   "Cinematographer - Documentary Film",
   "Assistant Director - Warner Bros Feature",
   "Makeup Department Head - Disney+ Fantasy",
   "Gaffer - Apple TV+ Drama Series",
   "Script Supervisor - Amazon Prime Thriller",
   "Casting Director - Indie Romance Film",
   "Location Manager - Netflix Action Series",
   "Stunt Coordinator - Fast & Furious Franchise",
   "Costume Designer - Period Drama Film",
   "Boom Operator - Sitcom Production"]

/-- `job_descriptions` local list in `generate_fallback_jobs`. -/
def job_descriptions : List String :=
  ["Seeking experienced editor for high-profile streaming series. Must have extensive experience with Avid Media Composer and collaborative post-production workflows.",
   "Looking for skilled cinematographer to shoot independent feature film. RED camera experience and natural lighting expertise required.",
   "VFX Supervisor needed for major superhero film. Strong background in Maya, Nuke, and team management essential.",
   "Sound designer for atmospheric horror film. Experience with Pro Tools, Foley recording, and sound library management preferred.",
   "Production designer for fantasy series set in medieval times. Strong attention to historical detail and large-scale set design required.",
   "Cinematographer for environmental documentary. Drone operation license and wildlife filming experience preferred.",
   "Assistant director for big-budget action film. Strong organizational skills and high-pressure set experience required.",
   "Makeup department head for fantasy series. Prosthetics, special effects makeup, and team leadership experience needed.",
   "Gaffer for critically acclaimed drama series. LED lighting expertise and color temperature mastery required.",
   "Script supervisor for psychological thriller. Continuity experience and meticulous attention to detail essential.",
   "Casting director for romantic comedy film. Strong industry connections and talent evaluation skills required.",
   "Location manager for action series. Scouting experience and permit negotiation skills essential.",
   "Stunt coordinator for major action franchise. Safety certification and wire work experience required.",
   "Costume designer for 1940s period drama. Historical research skills and fabric knowledge essential.",
   "Boom operator for multi-camera sitcom. Live audience experience and microphone technique expertise required."]

/-- `random.choice(l)` with draw `r`: an index uniform over the list is
modelled as `r % l.length`. -/
def randomChoice (l : List String) (r : Nat) : String := l.getD (r % l.length) ""

/-- `generate_fallback_jobs`: one job per title in list order, description
taken from the parallel list at `i % len(job_descriptions)`, location drawn
from the flattened location vocabulary, source stamped `"Generated"`.
Each iteration consumes exactly one draw, so iteration `i` uses `g i`. -/
def generate_fallback_jobs (g : Nat → Nat) : List Job :=
  (List.range job_titles.length).map (fun i =>
    { title := job_titles.getD i "",
      description := job_descriptions.getD (i % job_descriptions.length) "",
      location := randomChoice flat_locations (g i),
      source := "Generated" })

/-- `scrape_film_jobs`: run the three adapters in registration order,
concatenate, and replace the whole result with the fallback when empty. -/
def scrape_film_jobs (ph : Except String (List RawJob)) (fj : FJFetch)
    (mn : Except String (List RawJob)) (g : Nat → Nat) : List Job :=
  let jobs := scrape_production_hub ph ++ scrape_film_jobs_com fj ++ scrape_mandy_network mn
  if jobs = [] then generate_fallback_jobs g else jobs

/-- The profile dictionaries built by `scrape_film_professionals`. -/
structure ProfessionalProfile where
  firstName : String
  lastName : String
  role : String
  bio : String
  skills : List String
  experience : String
  location : String
deriving DecidableEq, Repr, Inhabited

/-- `first_names` local list in `scrape_film_professionals`. -/
def first_names : List String :=
  ["Christopher", "Jennifer", "Michael", "Sarah", "David", "Emma", "Robert", "Lisa",
   "James", "Amanda", "Daniel", "Rachel", "Matthew", "Jessica", "Andrew", "Emily",
   "Ryan", "Ashley", "Kevin", "Michelle", "Brian", "Nicole", "John", "Stephanie"]

/-- `last_names` local list in `scrape_film_professionals`. -/
def last_names : List String :=
  ["Anderson", "Johnson", "Williams", "Brown", "Jones", "Garcia", "Miller", "Davis",
   "Rodriguez", "Martinez", "Hernandez", "Lopez", "Gonzalez", "Wilson", "Anderson",
   "Thomas", "Taylor", "Moore", "Jackson", "Martin", "Lee", "Perez", "Thompson"]

/-- `film_bios` local list in `scrape_film_professionals`. -/
def film_bios : List String :=
  ["Award-winning filmmaker with over 15 years of experience in documentary and narrative film production.",
   "Experienced cinematographer specializing in natural light photography and handheld camera work.",
   "Post-production specialist with expertise in color grading, sound design, and visual effects.",
   "Creative producer with a proven track record of successful independent film projects.",
   "Visual effects artist with experience in both practical effects and digital compositing.",
   "Screenwriter focused on character-driven narratives and contemporary social issues.",
   "Production designer with extensive experience in period films and television series.",
   "Sound engineer specializing in location recording and post-production audio mixing."]

/-- `experiences` local list in `generate_film_experience`. -/
def experiences : List String :=
  ["Lead Editor - \"Midnight Stories\" (2023)",
   "Director of Photography - \"Urban Legends\" (2022)",
   "VFX Supervisor - \"Digital Dreams\" (2023)",
   "Sound Designer - \"Whispers in the Dark\" (2022)",
   "Production Designer - \"The Last Dance\" (2023)",
   "Assistant Director - \"City Lights\" TV Series (2021-2023)",
   "Makeup Artist - \"Fantasy Realm\" (2022)",
   "Gaffer - \"Commercial Campaign\" (2023)",
   "Script Supervisor - \"Detective Stories\" (2022)",
   "Casting Director - \"Love in the City\" (2023)"]

/-- `generate_film_experience`: `random.choice(experiences)` with draw `r`. -/
def generate_film_experience (r : Nat) : String := randomChoice experiences r

/-- `random.randint(lo, hi)` (both ends inclusive) with draw `r`. -/
def randint (lo hi : Nat) (r : Nat) : Nat := lo + r % (hi - lo + 1)

/-- `random.sample(pool, k)`: `k` distinct elements drawn without
replacement, modelled by repeatedly removing the element at a drawn index.
Returns the sample and the advanced cursor. -/
def sample (pool : List String) : Nat → (Nat → Nat) → Nat → List String × Nat
  | 0, _, c => ([], c)
  | k + 1, g, c =>
      if pool = [] then ([], c)
      else
        let idx := g c % pool.length
        let rest := sample (pool.eraseIdx idx) k g (c + 1)
        (pool.getD idx "" :: rest.1, rest.2)

/-- Body of the loop in `scrape_film_professionals`: one profile, drawing in
Python evaluation order (firstName, lastName, role, bio, the `randint`
argument of `random.sample`, the sample itself, experience, location).
Returns the profile and the advanced cursor. -/
def genProfile (g : Nat → Nat) (c : Nat) : ProfessionalProfile × Nat :=
  let k := randint 3 8 (g (c + 4))
  let s := sample film_skills k g (c + 5)
  ({ firstName := randomChoice first_names (g c),
     lastName := randomChoice last_names (g (c + 1)),
     role := randomChoice film_categories (g (c + 2)),
     bio := randomChoice film_bios (g (c + 3)),
     skills := s.1,
     experience := generate_film_experience (g s.2),
     location := randomChoice flat_locations (g (s.2 + 1)) }, s.2 + 2)

/-- The `for i in range(n)` loop of `scrape_film_professionals`, threading
the random cursor. -/
def genProfiles (g : Nat → Nat) : Nat → Nat → List ProfessionalProfile
  | 0, _ => []
  | n + 1, c => (genProfile g c).1 :: genProfiles g n (genProfile g c).2

/-- `scrape_film_professionals`: generate 100 profiles. -/
def scrape_film_professionals (g : Nat → Nat) : List ProfessionalProfile :=
  genProfiles g 100 0

set_option maxRecDepth 10000

/-! ## Helper lemmas -/

theorem truncate_length_le (s : String) (n : Nat) : (truncate s n).length ≤ n := by
  show (s.data.take n).length ≤ n
  rw [List.length_take n s.data]
  exact Nat.min_le_left _ _

theorem truncate_length_eq (s : String) (n : Nat) (h : n ≤ s.length) :
    (truncate s n).length = n := by
  show (s.data.take n).length = n
  rw [List.length_take n s.data]
  exact Nat.min_eq_left h

theorem truncate_of_le (s : String) (n : Nat) (h : s.length ≤ n) : truncate s n = s := by
  show String.mk (s.data.take n) = s
  rw [List.take_of_length_le h]

theorem randomChoice_mem (l : List String) (r : Nat) (h : l ≠ []) :
    randomChoice l r ∈ l := by
  have hl : 0 < l.length := List.length_pos.mpr h
  have hm : r % l.length < l.length := Nat.mod_lt r hl
  rw [randomChoice, List.getD_eq_getElem?_getD, List.getElem?_eq_getElem hm, Option.getD_some]
  exact List.getElem_mem hm

theorem getD_mem_of_lt (l : List String) (i : Nat) (d : String) (h : i < l.length) :
    l.getD i d ∈ l := by
  rw [List.getD_eq_getElem?_getD, List.getElem?_eq_getElem h, Option.getD_some]
  exact List.getElem_mem h

theorem getElem_not_mem_eraseIdx (l : List String) (i : Nat) (h : i < l.length)
    (hn : l.Nodup) : l[i] ∉ l.eraseIdx i := by
  induction l generalizing i with
  | nil => simp at h
  | cons a t ih =>
      cases i with
      | zero =>
          simpa using (List.nodup_cons.mp hn).1
      | succ i =>
          have ht : i < t.length := by simpa using h
          have hnt := List.nodup_cons.mp hn
          simp only [List.getElem_cons_succ, List.eraseIdx_cons_succ, List.mem_cons, not_or]
          refine ⟨?_, ih i ht hnt.2⟩
          intro hEq
          exact hnt.1 (hEq ▸ List.getElem_mem ht)

theorem sample_subset (g : Nat → Nat) :
    ∀ (k : Nat) (pool : List String) (c : Nat), ∀ x ∈ (sample pool k g c).1, x ∈ pool := by
  intro k
  induction k with
  | zero => intro pool c x hx; simp [sample] at hx
  | succ k ih =>
      intro pool c x hx
      by_cases hp : pool = []
      · simp [sample, hp] at hx
      · have hl : 0 < pool.length := List.length_pos.mpr hp
        have hm : g c % pool.length < pool.length := Nat.mod_lt _ hl
        simp only [sample, if_neg hp, List.mem_cons] at hx
        rcases hx with rfl | hx
        · exact getD_mem_of_lt pool _ "" hm
        · exact (List.eraseIdx_sublist pool _).subset (ih _ _ x hx)

theorem sample_length (g : Nat → Nat) :
    ∀ (k : Nat) (pool : List String) (c : Nat), k ≤ pool.length →
      (sample pool k g c).1.length = k := by
  intro k
  induction k with
  | zero => intro pool c _; rfl
  | succ k ih =>
      intro pool c hk
      have hp : pool ≠ [] := by
        intro h
        rw [h] at hk
        simp at hk
      have hl : 0 < pool.length := List.length_pos.mpr hp
      have hm : g c % pool.length < pool.length := Nat.mod_lt _ hl
      have herase : (pool.eraseIdx (g c % pool.length)).length = pool.length - 1 := by
        simp [List.length_eraseIdx, hm]
      simp only [sample, if_neg hp, List.length_cons]
      rw [ih _ _ (by omega)]

theorem sample_nodup (g : Nat → Nat) :
    ∀ (k : Nat) (pool : List String) (c : Nat), pool.Nodup →
      (sample pool k g c).1.Nodup := by
  intro k
  induction k with
  | zero => intro pool c _; simp [sample]
  | succ k ih =>
      intro pool c hn
      by_cases hp : pool = []
      · simp [sample, hp]
      · have hl : 0 < pool.length := List.length_pos.mpr hp
        have hm : g c % pool.length < pool.length := Nat.mod_lt _ hl
        simp only [sample, if_neg hp]
        refine List.nodup_cons.mpr ⟨?_, ih _ _ ((List.eraseIdx_sublist pool _).nodup hn)⟩
        intro hmem
        have hx : pool.getD (g c % pool.length) "" = pool[g c % pool.length] := by
          rw [List.getD_eq_getElem?_getD, List.getElem?_eq_getElem hm, Option.getD_some]
        have : pool[g c % pool.length] ∈ pool.eraseIdx (g c % pool.length) := by
          rw [← hx]
          exact sample_subset g k _ _ _ hmem
        exact getElem_not_mem_eraseIdx pool _ hm hn this

theorem normPH_spec (r : RawJob) (j : Job) (h : normPH r = some j) :
    j.source = "ProductionHUB" ∧ j.description.length ≤ 500 := by
  rcases r with ⟨t, d, loc⟩
  cases t <;> cases d <;> simp [normPH] at h
  rcases h with ⟨rfl⟩
  exact ⟨rfl, truncate_length_le _ _⟩

theorem normFJ_spec (r : RawJob) (j : Job) (h : normFJ r = some j) :
    j.source = "FilmJobs.com" ∧ j.description.length ≤ 500 := by
  rcases r with ⟨t, d, loc⟩
  cases t <;> cases d <;> cases loc <;> simp [normFJ] at h
  rcases h with ⟨rfl⟩
  exact ⟨rfl, truncate_length_le _ _⟩

theorem normMandy_spec (r : RawJob) (j : Job) (h : normMandy r = some j) :
    j.source = "Mandy Network" ∧ j.description.length ≤ 500 := by
  rcases r with ⟨t, d, loc⟩
  cases t <;> cases d <;> simp [normMandy] at h
  rcases h with ⟨rfl⟩
  exact ⟨rfl, truncate_length_le _ _⟩

theorem scrape_production_hub_spec (f : Except String (List RawJob)) :
    ∀ j ∈ scrape_production_hub f, j.source = "ProductionHUB" ∧ j.description.length ≤ 500 := by
  intro j hj
  cases f with
  | error e => simp [scrape_production_hub] at hj
  | ok raws =>
      simp only [scrape_production_hub, List.mem_filterMap] at hj
      obtain ⟨a, _, ha⟩ := hj
      exact normPH_spec a j ha

theorem scrape_film_jobs_com_spec (f : FJFetch) :
    ∀ j ∈ scrape_film_jobs_com f, j.source = "FilmJobs.com" ∧ j.description.length ≤ 500 := by
  intro j hj
  cases f with
  | acquireFail => simp [scrape_film_jobs_com] at hj
  | fetchFail => simp [scrape_film_jobs_com] at hj
  | ok raws =>
      simp only [scrape_film_jobs_com, List.mem_filterMap] at hj
      obtain ⟨a, _, ha⟩ := hj
      exact normFJ_spec a j ha

theorem scrape_mandy_network_spec (f : Except String (List RawJob)) :
    ∀ j ∈ scrape_mandy_network f, j.source = "Mandy Network" ∧ j.description.length ≤ 500 := by
  intro j hj
  cases f with
  | error e => simp [scrape_mandy_network] at hj
  | ok raws =>
      simp only [scrape_mandy_network, List.mem_filterMap] at hj
      obtain ⟨a, _, ha⟩ := hj
      exact normMandy_spec a j ha

theorem job_descriptions_short : ∀ d ∈ job_descriptions, d.length ≤ 500 := by decide

theorem generate_fallback_jobs_length (g : Nat → Nat) :
    (generate_fallback_jobs g).length = 15 := by
  simp only [generate_fallback_jobs, List.length_map, List.length_range]
  rfl

theorem generate_fallback_jobs_mem (g : Nat → Nat) :
    ∀ j ∈ generate_fallback_jobs g, j.source = "Generated" ∧ j.description.length ≤ 500 := by
  intro j hj
  simp only [generate_fallback_jobs, List.mem_map, List.mem_range] at hj
  obtain ⟨i, _, rfl⟩ := hj
  refine ⟨rfl, ?_⟩
  have hlen : 0 < job_descriptions.length := by decide
  exact job_descriptions_short _ (getD_mem_of_lt _ _ _ (Nat.mod_lt _ hlen))

/-! ## Claim theorems -/

/-- C1, counterexample: the adapters test only element *presence*
(`if title and description:`), not text non-emptiness, so a present title
element whose extracted text is empty is emitted as a record with an empty
`title`, refuting the claimed invariant. -/
theorem scrape_film_jobs_title_can_be_empty :
    ¬ (∀ j ∈ scrape_film_jobs (Except.ok [⟨some "", some "d", none⟩]) FJFetch.fetchFail
          (Except.error "boom") (fun _ => 0),
        j.title ≠ "" ∧ j.description ≠ "" ∧ j.description.length ≤ 500 ∧
        j.source ∈ ["ProductionHUB", "FilmJobs.com", "Mandy Network", "Generated"]) := by
  decide

/-- C1, amended: every record in the aggregator's output has a description of
length at most 500 and a `source` that is one of the three registered adapter
names or the synthetic marker; title and description are present extracted
strings but may be empty when the source element's text is empty. -/
theorem scrape_film_jobs_desc_cap_and_source (ph : Except String (List RawJob)) (fj : FJFetch)
    (mn : Except String (List RawJob)) (g : Nat → Nat) :
    ∀ j ∈ scrape_film_jobs ph fj mn g,
      j.description.length ≤ 500 ∧
      j.source ∈ ["ProductionHUB", "FilmJobs.com", "Mandy Network", "Generated"] := by
  intro j hj
  simp only [scrape_film_jobs] at hj
  split at hj
  · obtain ⟨hs, hd⟩ := generate_fallback_jobs_mem g j hj
    exact ⟨hd, by rw [hs]; simp⟩
  · rcases List.mem_append.mp hj with h | h
    · rcases List.mem_append.mp h with h2 | h2
      · obtain ⟨hs, hd⟩ := scrape_production_hub_spec ph j h2
        exact ⟨hd, by rw [hs]; simp⟩
      · obtain ⟨hs, hd⟩ := scrape_film_jobs_com_spec fj j h2
        exact ⟨hd, by rw [hs]; simp⟩
    · obtain ⟨hs, hd⟩ := scrape_mandy_network_spec mn j h
      exact ⟨hd, by rw [hs]; simp⟩

/-- Witness for the amended C1 theorem at a concrete input. -/
theorem scrape_film_jobs_desc_cap_and_source_witness :
    (⟨"t", "d", "Remote", "ProductionHUB"⟩ : Job).description.length ≤ 500 ∧
    (⟨"t", "d", "Remote", "ProductionHUB"⟩ : Job).source ∈
      ["ProductionHUB", "FilmJobs.com", "Mandy Network", "Generated"] :=
  scrape_film_jobs_desc_cap_and_source (Except.ok [⟨some "t", some "d", none⟩])
    FJFetch.fetchFail (Except.error "boom") (fun _ => 0)
    ⟨"t", "d", "Remote", "ProductionHUB"⟩ (by decide)

/-- C2: when all three adapters return empty lists, the aggregator's output is
exactly the synthetic generator's output: length equals the title-list length
(15) and every record's source is `"Generated"`; the replacement is the whole
fallback list, not a per-adapter top-up. -/
theorem scrape_film_jobs_all_empty_fallback (ph : Except String (List RawJob)) (fj : FJFetch)
    (mn : Except String (List RawJob)) (g : Nat → Nat)
    (h1 : scrape_production_hub ph = []) (h2 : scrape_film_jobs_com fj = [])
    (h3 : scrape_mandy_network mn = []) :
    scrape_film_jobs ph fj mn g = generate_fallback_jobs g ∧
    (scrape_film_jobs ph fj mn g).length = job_titles.length ∧
    (scrape_film_jobs ph fj mn g).length = 15 ∧
    ∀ j ∈ scrape_film_jobs ph fj mn g, j.source = "Generated" := by
  have heq : scrape_film_jobs ph fj mn g = generate_fallback_jobs g := by
    simp [scrape_film_jobs, h1, h2, h3]
  refine ⟨heq, ?_, ?_, ?_⟩
  · rw [heq, generate_fallback_jobs_length]
    rfl
  · rw [heq, generate_fallback_jobs_length]
  · intro j hj
    rw [heq] at hj
    exact (generate_fallback_jobs_mem g j hj).1

/-- Witness for C2 at a concrete input where every adapter fails. -/
theorem scrape_film_jobs_all_empty_fallback_witness :
    (scrape_film_jobs (Except.error "a") FJFetch.fetchFail (Except.error "b")
      (fun _ => 0)).length = 15 :=
  (scrape_film_jobs_all_empty_fallback (Except.error "a") FJFetch.fetchFail
    (Except.error "b") (fun _ => 0) rfl rfl rfl).2.2.1

/-- C3: when at least one adapter returns a record, the aggregator's output is
the concatenation of the three adapters' outputs in registration order
(ProductionHUB, FilmJobs.com, Mandy Network), is non-empty, and contains no
record with the synthetic marker `"Generated"`. -/
theorem scrape_film_jobs_no_fallback_when_some (ph : Except String (List RawJob)) (fj : FJFetch)
    (mn : Except String (List RawJob)) (g : Nat → Nat)
    (h : scrape_production_hub ph ≠ [] ∨ scrape_film_jobs_com fj ≠ [] ∨
         scrape_mandy_network mn ≠ []) :
    scrape_film_jobs ph fj mn g =
      scrape_production_hub ph ++ scrape_film_jobs_com fj ++ scrape_mandy_network mn ∧
    scrape_film_jobs ph fj mn g ≠ [] ∧
    ∀ j ∈ scrape_film_jobs ph fj mn g, j.source ≠ "Generated" := by
  have hne : scrape_production_hub ph ++ scrape_film_jobs_com fj ++
      scrape_mandy_network mn ≠ [] := by
    intro hnil
    rw [List.append_eq_nil] at hnil
    obtain ⟨h12, h3⟩ := hnil
    rw [List.append_eq_nil] at h12
    obtain ⟨hh1, hh2⟩ := h12
    rcases h with hx | hx | hx
    · exact hx hh1
    · exact hx hh2
    · exact hx h3
  have heq : scrape_film_jobs ph fj mn g =
      scrape_production_hub ph ++ scrape_film_jobs_com fj ++ scrape_mandy_network mn := by
    simp only [scrape_film_jobs, if_neg hne]
  refine ⟨heq, by rw [heq]; exact hne, ?_⟩
  intro j hj
  rw [heq] at hj
  rcases List.mem_append.mp hj with hx | hx
  · rcases List.mem_append.mp hx with hy | hy
    · rw [(scrape_production_hub_spec ph j hy).1]
      decide
    · rw [(scrape_film_jobs_com_spec fj j hy).1]
      decide
  · rw [(scrape_mandy_network_spec mn j hx).1]
    decide

/-- Witness for C3 at a concrete input where ProductionHUB yields one record. -/
theorem scrape_film_jobs_no_fallback_when_some_witness :
    scrape_film_jobs (Except.ok [⟨some "t", some "d", none⟩]) FJFetch.fetchFail
      (Except.error "x") (fun _ => 0) ≠ [] :=
  (scrape_film_jobs_no_fallback_when_some (Except.ok [⟨some "t", some "d", none⟩])
    FJFetch.fetchFail (Except.error "x") (fun _ => 0) (Or.inl (by decide))).2.1

/-- C4, counterexample: in `scrape_film_jobs_com` a candidate whose location
sub-element is absent makes `find_element` raise, so the inner `except` drops
the whole record instead of filling `location` with `"Remote"`: the claimed
`"Remote"` default does not hold for every adapter. -/
theorem film_jobs_com_drops_missing_location :
    scrape_film_jobs_com (FJFetch.ok [⟨some "Key Grip", some "Grip needed", none⟩]) = [] ∧
    ¬ ∃ j ∈ scrape_film_jobs_com (FJFetch.ok [⟨some "Key Grip", some "Grip needed", none⟩]),
        j.location = "Remote" := by
  decide

/-- C4, amended: ProductionHUB and Mandy Network fill `location` with
`"Remote"` when the location element is absent, while FilmJobs.com drops a
candidate whose location element is absent; every adapter drops candidates
missing title or description; every emitted record is stamped with its
adapter's source name. -/
theorem normalization_remote_and_drop_rules :
    (∀ t d : String, normPH ⟨some t, some d, none⟩ =
        some ⟨t, truncate d 500, "Remote", "ProductionHUB"⟩) ∧
    (∀ t d : String, normMandy ⟨some t, some d, none⟩ =
        some ⟨t, truncate d 500, "Remote", "Mandy Network"⟩) ∧
    (∀ t d : String, normFJ ⟨some t, some d, none⟩ = none) ∧
    (∀ r : RawJob, r.title = none ∨ r.description = none →
        normPH r = none ∧ normFJ r = none ∧ normMandy r = none) ∧
    (∀ (r : RawJob) (j : Job),
        (normPH r = some j → j.source = "ProductionHUB") ∧
        (normFJ r = some j → j.source = "FilmJobs.com") ∧
        (normMandy r = some j → j.source = "Mandy Network")) := by
  refine ⟨fun t d => rfl, fun t d => rfl, fun t d => rfl, ?_, ?_⟩
  · rintro ⟨t, d, loc⟩ (h | h) <;> simp only at h <;> subst h
    · exact ⟨rfl, by cases d <;> rfl, rfl⟩
    · refine ⟨by cases t <;> rfl, ?_, by cases t <;> rfl⟩
      cases t <;> [rfl; skip]
      cases loc <;> rfl
  · intro r j
    exact ⟨fun h => (normPH_spec r j h).1, fun h => (normFJ_spec r j h).1,
      fun h => (normMandy_spec r j h).1⟩

/-- Witness for the amended C4 theorem at concrete candidates. -/
theorem normalization_remote_and_drop_rules_witness :
    normPH ⟨some "T", some "D", none⟩ = some ⟨"T", truncate "D" 500, "Remote", "ProductionHUB"⟩ ∧
    normFJ ⟨some "T", some "D", none⟩ = none ∧
    normPH ⟨none, some "D", some "LA"⟩ = none :=
  ⟨normalization_remote_and_drop_rules.1 "T" "D",
   normalization_remote_and_drop_rules.2.2.1 "T" "D",
   (normalization_remote_and_drop_rules.2.2.2.1 ⟨none, some "D", some "LA"⟩ (Or.inl rfl)).1⟩

/-- C5: every adapter truncates the raw description with `[:500]`: a
description strictly longer than 500 characters is emitted with length
exactly 500, and one of at most 500 characters is emitted unchanged. -/
theorem norm_description_truncation (t d loc l : String) :
    (500 < d.length →
        (normPH ⟨some t, some d, some loc⟩).map (fun j => j.description.length) = some 500 ∧
        (normFJ ⟨some t, some d, some l⟩).map (fun j => j.description.length) = some 500 ∧
        (normMandy ⟨some t, some d, some loc⟩).map (fun j => j.description.length) = some 500) ∧
    (d.length ≤ 500 →
        (normPH ⟨some t, some d, some loc⟩).map (fun j => j.description) = some d ∧
        (normFJ ⟨some t, some d, some l⟩).map (fun j => j.description) = some d ∧
        (normMandy ⟨some t, some d, some loc⟩).map (fun j => j.description) = some d) := by
  constructor
  · intro h
    have ht := truncate_length_eq d 500 (le_of_lt h)
    exact ⟨by simp [normPH, ht], by simp [normFJ, ht], by simp [normMandy, ht]⟩
  · intro h
    have ht := truncate_of_le d 500 h
    exact ⟨by simp [normPH, ht], by simp [normFJ, ht], by simp [normMandy, ht]⟩

/-- A 501-character description, used to witness the truncation theorem. -/
def longDesc : String := String.mk (List.replicate 501 'a')

/-- Witness for C5: a 501-character description is cut to exactly 500, and a
short one passes through unchanged. -/
theorem norm_description_truncation_witness :
    (normPH ⟨some "T", some longDesc, some "LA"⟩).map (fun j => j.description.length) =
      some 500 ∧
    (normMandy ⟨some "T", some "short", some "LA"⟩).map (fun j => j.description) =
      some "short" :=
  ⟨((norm_description_truncation "T" longDesc "LA" "LA").1
      (by show 500 < (List.replicate 501 'a').length; simp)).1,
   ((norm_description_truncation "T" "short" "LA" "LA").2 (by decide)).2.2⟩

/-- C6: hard per-adapter caps: ProductionHUB emits at most 20 records,
FilmJobs.com at most 15, Mandy Network at most 10, whatever the fetch
returns. -/
theorem adapter_caps (ph mn : Except String (List RawJob)) (fj : FJFetch) :
    (scrape_production_hub ph).length ≤ 20 ∧
    (scrape_film_jobs_com fj).length ≤ 15 ∧
    (scrape_mandy_network mn).length ≤ 10 := by
  refine ⟨?_, ?_, ?_⟩
  · cases ph with
    | error e => simp [scrape_production_hub]
    | ok raws =>
        calc ((raws.take 20).filterMap normPH).length
            ≤ (raws.take 20).length := List.length_filterMap_le _ _
          _ ≤ 20 := List.length_take_le _ _
  · cases fj with
    | acquireFail => simp [scrape_film_jobs_com]
    | fetchFail => simp [scrape_film_jobs_com]
    | ok raws =>
        calc ((raws.take 15).filterMap normFJ).length
            ≤ (raws.take 15).length := List.length_filterMap_le _ _
          _ ≤ 15 := List.length_take_le _ _
  · cases mn with
    | error e => simp [scrape_mandy_network]
    | ok raws =>
        calc ((raws.take 10).filterMap normMandy).length
            ≤ (raws.take 10).length := List.length_filterMap_le _ _
          _ ≤ 10 := List.length_take_le _ _

/-- C7: adapter isolation: a failed fetch makes that adapter return the empty
list instead of propagating, and the aggregator still combines the remaining
adapters' outputs (falling back only when everything is empty). -/
theorem adapter_isolation (e : String) (ph mn : Except String (List RawJob))
    (fj : FJFetch) (g : Nat → Nat) :
    scrape_production_hub (Except.error e) = [] ∧
    scrape_film_jobs_com FJFetch.acquireFail = [] ∧
    scrape_film_jobs_com FJFetch.fetchFail = [] ∧
    scrape_mandy_network (Except.error e) = [] ∧
    scrape_film_jobs (Except.error e) fj mn g =
      (if scrape_film_jobs_com fj ++ scrape_mandy_network mn = []
       then generate_fallback_jobs g
       else scrape_film_jobs_com fj ++ scrape_mandy_network mn) ∧
    scrape_film_jobs ph FJFetch.fetchFail mn g =
      (if scrape_production_hub ph ++ scrape_mandy_network mn = []
       then generate_fallback_jobs g
       else scrape_production_hub ph ++ scrape_mandy_network mn) ∧
    scrape_film_jobs ph fj (Except.error e) g =
      (if scrape_production_hub ph ++ scrape_film_jobs_com fj = []
       then generate_fallback_jobs g
       else scrape_production_hub ph ++ scrape_film_jobs_com fj) := by
  refine ⟨rfl, rfl, rfl, rfl, ?_, ?_, ?_⟩
  · simp [scrape_film_jobs, scrape_production_hub]
  · simp [scrape_film_jobs, scrape_film_jobs_com]
  · simp [scrape_film_jobs, scrape_mandy_network]

/-- C8: in `scrape_film_jobs_com` the `driver.quit()` call sits inside the
`try` block after the extraction loop, so when an exception is raised after
the session is acquired (e.g. `driver.get` fails) control jumps to `except`
and the session is never released; only the fully successful path quits the
driver. This evaluates the code at the failing input. -/
theorem film_jobs_com_quit_skipped_on_error :
    sessionAcquired FJFetch.fetchFail = true ∧
    driverQuitCalled FJFetch.fetchFail = false ∧
    driverQuitCalled (FJFetch.ok []) = true := by
  decide

theorem genProfiles_length (g : Nat → Nat) : ∀ (n c : Nat), (genProfiles g n c).length = n := by
  intro n
  induction n with
  | zero => intro c; rfl
  | succ n ih => intro c; simp only [genProfiles, List.length_cons, ih]

theorem mem_genProfiles (g : Nat → Nat) :
    ∀ (n c : Nat) (p : ProfessionalProfile), p ∈ genProfiles g n c →
      ∃ c2, p = (genProfile g c2).1 := by
  intro n
  induction n with
  | zero => intro c p hp; simp [genProfiles] at hp
  | succ n ih =>
      intro c p hp
      simp only [genProfiles, List.mem_cons] at hp
      rcases hp with h | h
      · exact ⟨c, h⟩
      · exact ih _ p h

theorem genProfile_spec (g : Nat → Nat) (c : Nat) :
    (genProfile g c).1.skills.Nodup ∧
    3 ≤ (genProfile g c).1.skills.length ∧ (genProfile g c).1.skills.length ≤ 8 ∧
    (∀ s ∈ (genProfile g c).1.skills, s ∈ film_skills) ∧
    (genProfile g c).1.role ∈ film_categories ∧
    (genProfile g c).1.location ∈ flat_locations := by
  have hk1 : 3 ≤ randint 3 8 (g (c + 4)) := Nat.le_add_right 3 _
  have hk2 : randint 3 8 (g (c + 4)) ≤ 8 := by
    unfold randint
    have : g (c + 4) % (8 - 3 + 1) < 6 := Nat.mod_lt _ (by decide)
    omega
  have hkpool : randint 3 8 (g (c + 4)) ≤ film_skills.length := by
    have h19 : film_skills.length = 19 := rfl
    omega
  have hnd : film_skills.Nodup := by decide
  simp only [genProfile]
  refine ⟨sample_nodup g _ _ _ hnd, ?_, ?_,
    fun s hs => sample_subset g _ _ _ s hs,
    randomChoice_mem _ _ (by decide), randomChoice_mem _ _ (by decide)⟩
  · rw [sample_length g _ _ _ hkpool]
    exact hk1
  · rw [sample_length g _ _ _ hkpool]
    exact hk2

/-- C9: profile generation yields exactly 100 records, and each has between
3 and 8 distinct skills drawn from the skills vocabulary, a role from the
categories vocabulary and a location from the flattened locations
vocabulary, for every behaviour of the random source. -/
theorem scrape_film_professionals_spec (g : Nat → Nat) :
    (scrape_film_professionals g).length = 100 ∧
    ∀ p ∈ scrape_film_professionals g,
      p.skills.Nodup ∧ 3 ≤ p.skills.length ∧ p.skills.length ≤ 8 ∧
      (∀ s ∈ p.skills, s ∈ film_skills) ∧
      p.role ∈ film_categories ∧ p.location ∈ flat_locations := by
  constructor
  · exact genProfiles_length g 100 0
  · intro p hp
    obtain ⟨c2, rfl⟩ := mem_genProfiles g 100 0 p hp
    exact genProfile_spec g c2

/-- The profile produced by every iteration under the all-zero random
stream, used to witness the profile-generation theorem. -/
def profile0 : ProfessionalProfile :=
  { firstName := "Christopher", lastName := "Anderson", role := "Director",
    bio := "Award-winning filmmaker with over 15 years of experience in documentary and narrative film production.",
    skills := ["Final Cut Pro", "Avid Media Composer", "Adobe Premiere Pro"],
    experience := "Lead Editor - \"Midnight Stories\" (2023)",
    location := "Los Angeles" }

/-- Witness for C9 at the all-zero random stream. -/
theorem scrape_film_professionals_spec_witness :
    (scrape_film_professionals (fun _ => 0)).length = 100 ∧
    profile0.role ∈ film_categories ∧ profile0.location ∈ flat_locations :=
  ⟨(scrape_film_professionals_spec (fun _ => 0)).1,
   ((scrape_film_professionals_spec (fun _ => 0)).2 profile0 (by decide)).2.2.2.2.1,
   ((scrape_film_professionals_spec (fun _ => 0)).2 profile0 (by decide)).2.2.2.2.2⟩

/-- C10: the title and description lists both have length 15, so the modulo
index never wraps: the i-th fallback job carries the i-th title and the i-th
description, independent of the random source (only `location` reads it). -/
theorem generate_fallback_jobs_titles_descriptions :
    job_titles.length = 15 ∧ job_descriptions.length = 15 ∧
    ∀ (g : Nat → Nat) (i : Nat), i < 15 →
      ((generate_fallback_jobs g).getD i default).title = job_titles.getD i "" ∧
      ((generate_fallback_jobs g).getD i default).description = job_descriptions.getD i "" := by
  refine ⟨rfl, rfl, ?_⟩
  intro g i hi
  have hr : i < job_titles.length := hi
  have heq : (generate_fallback_jobs g).getD i default =
      { title := job_titles.getD i "",
        description := job_descriptions.getD (i % job_descriptions.length) "",
        location := randomChoice flat_locations (g i),
        source := "Generated" } := by
    simp only [generate_fallback_jobs, List.getD_eq_getElem?_getD, List.getElem?_map,
      List.getElem?_range hr, Option.map_some', Option.getD_some]
  rw [heq]
  have hm : i % job_descriptions.length = i := Nat.mod_eq_of_lt hi
  exact ⟨rfl, by simp only [hm]⟩

/-- Witness for C10 at index 2 under the all-zero random stream. -/
theorem generate_fallback_jobs_titles_descriptions_witness :
    ((generate_fallback_jobs (fun _ => 0)).getD 2 default).description =
      job_descriptions.getD 2 "" :=
  (generate_fallback_jobs_titles_descriptions.2.2 (fun _ => 0) 2 (by decide)).2
